import Mathlib

/-!
Verification of the `fretboard` repository: a Flask application (`src/app.py`)
that registers a single route `GET /` whose handler returns
`render_template("index.html")`, and runs the development server with
`debug=True` when executed as the main module.

The embedding models:
  * HTTP methods, requests and responses;
  * the template environment (`render_template` looks a template up by name;
    a missing or unreadable template yields no rendered content and the
    framework answers with its default 500 error);
  * Flask route registration, including the framework's automatic addition
    of `HEAD` and `OPTIONS` to a route declared with `GET` only;
  * the framework's dispatch: unknown path → 404, known path with a method
    not registered for it → 405, otherwise the handler runs;
  * module-level execution: importing registers the route; running as
    `__main__` additionally starts the server with `debug=True`.
-/

namespace Fretboard

/-- HTTP request methods relevant to dispatch. -/
inductive Method where
  | GET
  | HEAD
  | OPTIONS
  | POST
  | PUT
  | DELETE
  | PATCH
deriving DecidableEq, Repr

/-- An HTTP request: a method and a path. -/
structure Request where
  method : Method
  path : String
deriving DecidableEq, Repr

/-- An HTTP response: a status code and a body. -/
structure Response where
  status : Nat
  body : String
deriving DecidableEq, Repr

/-- The template environment: for each template name, the rendered content the
templating mechanism produces for it, or `none` when the template resource is
missing or unreadable. -/
def TemplateEnv : Type := String → Option String

/-- `render_template(name)`: look the named template up in the environment and
produce its rendered content, or fail when it is missing or unreadable. -/
def render_template (env : TemplateEnv) (name : String) : Option String :=
  env name

/-- The `index` view function of `src/app.py`:
`return render_template("index.html")`. -/
def index (env : TemplateEnv) : Option String :=
  render_template env "index.html"

/-- The routes registered by `src/app.py`: the single rule `"/"` with the
default declared method list `[GET]` (from `@app.route("/")`). -/
def appRoutes : List (String × List Method) :=
  [("/", [Method.GET])]

/-- Flask's `add_url_rule` semantics for the method set actually served:
`HEAD` is added automatically when `GET` is declared, and `OPTIONS` is added
automatically (`provide_automatic_options`). -/
def flaskMethods (declared : List Method) : List Method :=
  declared
    ++ (if Method.GET ∈ declared ∧ Method.HEAD ∉ declared then [Method.HEAD] else [])
    ++ (if Method.OPTIONS ∉ declared then [Method.OPTIONS] else [])

/-- Find the registered route whose rule equals the request path. -/
def findRoute (path : String) : Option (String × List Method) :=
  appRoutes.find? (fun r => r.1 = path)

/-- The framework's dispatch of one request against the registered routes:
no route matches the path → default 404 response; the route matches but the
method is not among the ones served for it → default 405 response; `OPTIONS`
is answered by the framework's automatic handler; otherwise the `index`
handler runs (its body is discarded for `HEAD`), and a handler failure
(missing template) is surfaced as the framework's default 500 response. -/
def dispatch (env : TemplateEnv) (req : Request) : Response :=
  match findRoute req.path with
  | none => { status := 404, body := "Not Found" }
  | some (_, declared) =>
      if req.method ∈ flaskMethods declared then
        if req.method = Method.OPTIONS then
          { status := 200, body := "" }
        else
          match index env with
          | some body =>
              { status := 200, body := if req.method = Method.HEAD then "" else body }
          | none => { status := 500, body := "Internal Server Error" }
      else
        { status := 405, body := "Method Not Allowed" }

/-- The observable application state: the template environment is the only
resource the application reads; the code holds no other mutable state. -/
structure AppState where
  env : TemplateEnv

/-- Handling one request: produce the response and the state after the call.
The handler only reads the template resource, so the state is returned
unchanged. -/
def handle (s : AppState) (req : Request) : Response × AppState :=
  (dispatch s.env req, s)

/-- Observable effects of executing the module `src/app.py`. -/
inductive Effect where
  | registerRoute (rule : String) (methods : List Method)
  | runServer (debug : Bool)
deriving DecidableEq, Repr

/-- Executing the module with a given `__name__`: the route decorators always
run and register the routes; `app.run(debug=True)` runs only under the
`if __name__ == "__main__":` guard. -/
def moduleEffects (name : String) : List Effect :=
  (appRoutes.map fun r => Effect.registerRoute r.1 r.2)
    ++ (if name = "__main__" then [Effect.runServer true] else [])

/-- A sample template environment in which `"index.html"` is present and
renders to a concrete page. -/
def sampleEnv : TemplateEnv :=
  fun name => if name = "index.html" then some "<html>fretboard</html>" else none

/-- A sample template environment in which every template, `"index.html"`
included, is missing. -/
def emptyEnv : TemplateEnv :=
  fun _ => none

end Fretboard

namespace Fretboard

/-- C1: for every request with method GET and path "/", the response has
status 200 and its body equals the rendered content of the index template. -/
theorem get_root_ok (env : TemplateEnv) (body : String)
    (h : env "index.html" = some body) :
    dispatch env { method := Method.GET, path := "/" } =
      { status := 200, body := body } := by
  simp [dispatch, findRoute, appRoutes, flaskMethods, index, render_template, h]

/-- Witness for C1 at the sample environment. -/
theorem get_root_ok_witness :
    dispatch sampleEnv { method := Method.GET, path := "/" } =
      { status := 200, body := "<html>fretboard</html>" } :=
  get_root_ok sampleEnv "<html>fretboard</html>" rfl

/-- C2: for every request whose path is not "/", the response status is 404,
whatever the method and the template environment. -/
theorem unknown_path_404 (env : TemplateEnv) (m : Method) (p : String)
    (h : p ≠ "/") :
    (dispatch env { method := m, path := p }).status = 404 := by
  simp [dispatch, findRoute, appRoutes, Ne.symm h]

/-- Witness for C2 at the path "/missing". -/
theorem unknown_path_404_witness :
    (dispatch sampleEnv { method := Method.GET, path := "/missing" }).status = 404 :=
  unknown_path_404 sampleEnv Method.GET "/missing" (by decide)

/-- C3 (as stated) is false: HEAD is not GET, yet a HEAD request to "/" is
answered 200, not 405, because the framework registers HEAD automatically
alongside the GET-only route. -/
theorem non_get_405_counterexample :
    Method.HEAD ≠ Method.GET ∧
      (dispatch sampleEnv { method := Method.HEAD, path := "/" }).status = 200 := by
  constructor
  · decide
  · rfl

/-- C3 (amended): for every request to "/" whose method is not GET, HEAD or
OPTIONS (for example POST), the response status is 405, since only GET is
declared and the framework adds only HEAD and OPTIONS beside it. -/
theorem non_get_405 (env : TemplateEnv) (m : Method)
    (hg : m ≠ Method.GET) (hh : m ≠ Method.HEAD) (ho : m ≠ Method.OPTIONS) :
    (dispatch env { method := m, path := "/" }).status = 405 := by
  cases m <;> simp_all [dispatch, findRoute, appRoutes, flaskMethods]

/-- Witness for the amended C3 at a POST request. -/
theorem non_get_405_witness :
    (dispatch sampleEnv { method := Method.POST, path := "/" }).status = 405 :=
  non_get_405 sampleEnv Method.POST (by decide) (by decide) (by decide)

/-- C4: when the index template is missing or unreadable, a GET "/" request
is answered with the framework's default 500 response; the code defines no
error handling of its own. -/
theorem missing_template_500 (env : TemplateEnv)
    (h : env "index.html" = none) :
    (dispatch env { method := Method.GET, path := "/" }).status = 500 := by
  simp [dispatch, findRoute, appRoutes, flaskMethods, index, render_template, h]

/-- Witness for C4 at the empty environment. -/
theorem missing_template_500_witness :
    (dispatch emptyEnv { method := Method.GET, path := "/" }).status = 500 :=
  missing_template_500 emptyEnv rfl

/-- C5: repeated GET "/" requests are idempotent: running the request twice in
sequence produces the same response both times, and the state after the two
calls is the starting state. -/
theorem get_root_idempotent (s : AppState) :
    (handle s { method := Method.GET, path := "/" }).1 =
        (handle (handle s { method := Method.GET, path := "/" }).2
          { method := Method.GET, path := "/" }).1 ∧
      (handle (handle s { method := Method.GET, path := "/" }).2
          { method := Method.GET, path := "/" }).2 = s := by
  exact ⟨rfl, rfl⟩

/-- C6: the handler for GET "/" renders exactly the template resource named
"index.html" and forwards its rendered content verbatim as the response body:
the body equals that resource's content, and the response depends on no other
template resource. -/
theorem renders_exactly_index_html (env env' : TemplateEnv) (b : String)
    (hb : env "index.html" = some b)
    (hagree : env' "index.html" = env "index.html") :
    (dispatch env { method := Method.GET, path := "/" }).body = b ∧
      dispatch env' { method := Method.GET, path := "/" } =
        dispatch env { method := Method.GET, path := "/" } := by
  constructor
  · simp [dispatch, findRoute, appRoutes, flaskMethods, index, render_template, hb]
  · simp [dispatch, findRoute, appRoutes, flaskMethods, index, render_template, hagree]

/-- Witness for C6: two environments agreeing on "index.html" but differing
elsewhere yield the same response, whose body is the resource's content. -/
theorem renders_exactly_index_html_witness :
    (dispatch sampleEnv { method := Method.GET, path := "/" }).body =
        "<html>fretboard</html>" ∧
      dispatch (fun name => if name = "index.html"
            then some "<html>fretboard</html>" else some "other")
          { method := Method.GET, path := "/" } =
        dispatch sampleEnv { method := Method.GET, path := "/" } :=
  renders_exactly_index_html sampleEnv
    (fun name => if name = "index.html" then some "<html>fretboard</html>" else some "other")
    "<html>fretboard</html>" rfl rfl

/-- C7: handling any request leaves the application state unchanged: the
handler only reads the template resource and emits the response. -/
theorem handle_no_side_effects (s : AppState) (req : Request) :
    (handle s req).2 = s :=
  rfl

/-- C8: executing the module as the main program registers the single route
"/" with declared method GET and then starts the server with debug enabled;
these are the module's only effects, so no flags or options of its own
exist. -/
theorem main_runs_debug_server :
    moduleEffects "__main__" =
      [Effect.registerRoute "/" [Method.GET], Effect.runServer true] :=
  rfl

/-- C9: a HEAD request to "/" is answered 200 (the framework registers HEAD
automatically beside GET), and an OPTIONS request to "/" is answered 200 as
well: neither yields 405. -/
theorem head_options_not_405 (env : TemplateEnv) (b : String)
    (h : env "index.html" = some b) :
    (dispatch env { method := Method.HEAD, path := "/" }).status = 200 ∧
      (dispatch env { method := Method.OPTIONS, path := "/" }).status = 200 := by
  constructor
  · simp [dispatch, findRoute, appRoutes, flaskMethods, index, render_template, h]
  · simp [dispatch, findRoute, appRoutes, flaskMethods]

/-- Witness for C9 at the sample environment. -/
theorem head_options_not_405_witness :
    (dispatch sampleEnv { method := Method.HEAD, path := "/" }).status = 200 ∧
      (dispatch sampleEnv { method := Method.OPTIONS, path := "/" }).status = 200 :=
  head_options_not_405 sampleEnv "<html>fretboard</html>" rfl

/-- C10: importing the module under any name other than "__main__" registers
the "/" route but starts no server: the run-server effect does not occur. -/
theorem non_main_does_not_run_server (name : String) (h : name ≠ "__main__") :
    moduleEffects name = [Effect.registerRoute "/" [Method.GET]] ∧
      ∀ d, Effect.runServer d ∉ moduleEffects name := by
  constructor
  · simp [moduleEffects, appRoutes, h]
  · intro d
    simp [moduleEffects, appRoutes, h]

/-- Witness for C10 at the module name "app". -/
theorem non_main_does_not_run_server_witness :
    moduleEffects "app" = [Effect.registerRoute "/" [Method.GET]] ∧
      ∀ d, Effect.runServer d ∉ moduleEffects "app" :=
  non_main_does_not_run_server "app" (by decide)

end Fretboard
